import Mathlib

/-!
Verification of the location-streaming adapter in
`staging/src/k8s.io/apiserver/pkg/registry/generic/rest/streamer.go`.

The Go file is shallowly embedded below.  External collaborators (the
`net/http` client and transport, the configmap storage) are modelled as
explicit function-valued parameters with the signatures the Go code uses;
all definitions are executable.  Go's `error` values are modelled by
`GoError`, a `nil` error by `Option.none`, and a `panic` by the error side
of an `Except`.  The response body (`io.ReadCloser`) is modelled as an
opaque handle (a `Nat` identifier); the set of handles the adapter closes
internally before returning is recorded in the outcome so resource-safety
statements can be expressed.
-/

namespace Streamer

/-- A Go `error` value: just its message, as produced by `errors.New` /
`fmt.Errorf`. -/
structure GoError where
  msg : String
deriving DecidableEq, Repr

/-- The caller's `context.Context`, reduced to the one observable fact the
adapter's control flow can react to: whether it has been canceled (or its
deadline has expired). -/
structure Ctx where
  canceled : Bool
deriving DecidableEq, Repr

/-- `context.Background()`: a context that is never canceled.  This is the
context `http.NewRequest` initially attaches to a request. -/
def Ctx.background : Ctx := ⟨false⟩

/-- A `*url.URL`, reduced to its `String()` serialization, which is the
only use the adapter makes of it. -/
structure URL where
  str : String
deriving DecidableEq, Repr

/-- An outbound `*http.Request`: method, target URL, attached context and
header list (in insertion order; `Header.Add` appends). -/
structure Request where
  method : String
  url : String
  ctx : Ctx
  header : List (String × String)
deriving DecidableEq, Repr

/-- A completed `*http.Response`: its header and its body, the latter an
opaque `io.ReadCloser` handle identified by a number. -/
structure Response where
  header : List (String × String)
  body : Nat
deriving DecidableEq, Repr

/-- `Header.Get` distinguishing absence: first value stored under the key,
if any. -/
def headerFind (h : List (String × String)) (key : String) : Option String :=
  (h.find? (fun p => p.fst == key)).map (fun p => p.snd)

/-- Go's `http.Header.Get`: the first value stored under the key, or `""`
when the key is absent. -/
def headerGet (h : List (String × String)) (key : String) : String :=
  (headerFind h key).getD ""

/-- One round trip of the `http.RoundTripper` transport: a final response,
a redirect to a follow-up request, or a network failure. -/
inductive TransportResult where
  | success (resp : Response)
  | redirect (next : Request)
  | failure (e : GoError)

/-- An `http.RoundTripper`. -/
def Transport := Request → TransportResult

/-- A `CheckRedirect` policy: given the upcoming request and the requests
already made, a non-`none` error aborts the hop. -/
def RedirectChecker := Request → List Request → Option GoError

/-- What `http.Client.Do` produced: its outcome and the requests it
actually handed to the transport, in order. -/
structure DoResult where
  outcome : Except GoError Response
  sent : List Request
deriving Repr

/-- Go's `defaultCheckRedirect`: stop after 10 consecutive redirects. -/
def defaultCheckRedirect : RedirectChecker :=
  fun _ via => if 10 ≤ via.length then some ⟨"stopped after 10 redirects"⟩ else none

/-- The redirect-following loop inside `http.Client.Do`.  A canceled
request context aborts before the transport is invoked; on a redirect the
`CheckRedirect` policy is consulted with the upcoming request and the
requests made so far, and a non-`none` answer aborts the send with that
error.  The fuel bounds the hop loop. -/
def clientDoAux (transport : Transport) (check : RedirectChecker) :
    Nat → Request → List Request → DoResult
  | 0, _, _ => ⟨.error ⟨"stopped after 10 redirects"⟩, []⟩
  | Nat.succ fuel, req, via =>
    if req.ctx.canceled then ⟨.error ⟨"context canceled"⟩, []⟩
    else
      match transport req with
      | .failure e => ⟨.error e, [req]⟩
      | .success resp => ⟨.ok resp, [req]⟩
      | .redirect next =>
        match check next (via ++ [req]) with
        | some e => ⟨.error e, [req]⟩
        | none =>
          let r := clientDoAux transport check fuel next (via ++ [req])
          ⟨r.outcome, req :: r.sent⟩

/-- `http.Client.Do` for a client built with the given transport and an
optional `CheckRedirect` (when absent, Go's default policy applies). -/
def clientDo (transport : Transport) (check : Option RedirectChecker)
    (req : Request) : DoResult :=
  clientDoAux transport (check.getD defaultCheckRedirect) 11 req []

/-- `PreventRedirects` is a redirect checker that prevents the client from
following a redirect (`streamer.go:142-144`). -/
def PreventRedirects : RedirectChecker :=
  fun _ _ => some ⟨"redirects forbidden"⟩

/-- A `runtime.Object` as seen by `getVirtualClusterName`: either an
`*api.ConfigMap` carrying its `Data` map, or some other runtime object (on
which the type assertion to `*api.ConfigMap` fails). -/
inductive RuntimeObject where
  | configMap (data : List (String × String))
  | other (desc : String)
deriving DecidableEq, Repr

/-- The configmap storage collaborator (`cmstore.REST`): its `Get`
operation, keyed by namespace (carried by the request context in Go) and
name. -/
structure ConfigMapStore where
  get : String → String → Except GoError RuntimeObject

/-- `schema.ObjectKind`; `empty` is `schema.EmptyObjectKind`. -/
inductive ObjectKind where
  | empty
  | gvk (group version kind : String)
deriving DecidableEq, Repr

def VirtualClusterNameHeaderKey : String := "virtualcluster-name"
def VirtualClusterNameConfigMapDataKey : String := "VirtualClusterName"
def VirtualClusterInfoConfigMapNS : String := "kube-system"
def VirtualClusterInfoConfigMapName : String := "virtualcluster-info"

/-- The `LocationStreamer` struct (`streamer.go:47-55`). -/
structure LocationStreamer where
  Location : Option URL
  Transport : Option Streamer.Transport
  ContentType : String
  Flush : Bool
  ResponseChecker : Option (Response → Option GoError)
  RedirectChecker : Option Streamer.RedirectChecker
  ConfigMap : ConfigMapStore

/-- `GetObjectKind` (`streamer.go:60-62`): always the empty object kind. -/
def GetObjectKind (_ : LocationStreamer) : ObjectKind := ObjectKind.empty

/-- `DeepCopyObject` (`streamer.go:63-65`).  The Go method panics
unconditionally; the panic is modelled as the error side of `Except`, so a
normal return (`Except.ok`) is impossible. -/
def DeepCopyObject (_ : LocationStreamer) : Except String RuntimeObject :=
  .error "rest.LocationStreamer does not implement DeepCopyObject"

/-- `getVirtualClusterName` (`streamer.go:67-88`): fetch the configmap
`kube-system/virtualcluster-info`; on fetch failure, failed type assertion
to `*api.ConfigMap`, or a missing `VirtualClusterName` key in `Data`, log
and return the empty string.  Its return type is `String`: no error
channel exists. -/
def getVirtualClusterName (s : LocationStreamer) : String :=
  match s.ConfigMap.get VirtualClusterInfoConfigMapNS VirtualClusterInfoConfigMapName with
  | .error _ => ""
  | .ok obj =>
    match obj with
    | .other _ => ""
    | .configMap data =>
      match data.find? (fun p => p.fst == VirtualClusterNameConfigMapDataKey) with
      | none => ""
      | some p => p.snd

/-- The environment supplied by `net/http`: whether `http.NewRequest`
succeeds on a given URL string (and the parse error when it does not), and
the process-wide `http.DefaultTransport`. -/
structure HttpEnv where
  urlParses : String → Bool
  parseErr : String → GoError
  defaultTransport : Transport

/-- `http.NewRequest`: on success the request has the given method and
URL, the background context and an empty header. -/
def newRequest (env : HttpEnv) (method u : String) : Except GoError Request :=
  if env.urlParses u then .ok ⟨method, u, Ctx.background, []⟩
  else .error (env.parseErr u)

/-- The request `InputStream` builds before sending
(`streamer.go:107-116`): `http.NewRequest("GET", loc.String(), nil)` with
its construction error wrapped, then `req.WithContext(ctx)`, then
`req.Header.Add("virtualcluster-name", s.getVirtualClusterName())`. -/
def streamRequest (env : HttpEnv) (s : LocationStreamer) (ctx : Ctx) (loc : URL) :
    Except GoError Request :=
  match newRequest env "GET" loc.str with
  | .error e =>
    .error ⟨"failed to construct request for " ++ loc.str ++ ", got " ++ e.msg⟩
  | .ok req0 =>
    let req1 : Request := { req0 with ctx := ctx }
    .ok { req1 with
          header := req1.header ++ [(VirtualClusterNameHeaderKey, getVirtualClusterName s)] }

/-- `if s.ResponseChecker != nil { s.ResponseChecker.Check(resp) }`
(`streamer.go:123-127`): `none` when no checker is configured or the
checker accepts. -/
def checkResponse (s : LocationStreamer) (resp : Response) : Option GoError :=
  match s.ResponseChecker with
  | some c => c resp
  | none => none

/-- `strings.SplitN(ct, ";", 2)[0]`: the portion of the string before the
first `;`, or the whole string when no `;` occurs. -/
def splitBeforeSemicolon (s : String) : String :=
  String.mk (s.toList.takeWhile (fun c => c ≠ ';'))

/-- Go's `strings.TrimSpace`: the string with leading and trailing
whitespace characters removed. -/
def trimSpace (s : String) : String :=
  String.mk (((s.toList.dropWhile Char.isWhitespace).reverse.dropWhile
    Char.isWhitespace).reverse)

/-- Content-type resolution (`streamer.go:129-135`): the spec's
`ContentType` when non-empty; otherwise the response's `Content-Type`
header value, with its portion before the first `;` taken and trimmed when
that value is non-empty. -/
def resolveContentType (specCT : String) (respHeader : List (String × String)) : String :=
  if specCT.length == 0 then
    let ct := headerGet respHeader "Content-Type"
    if ct.length > 0 then trimSpace (splitBeforeSemicolon ct) else ct
  else specCT

/-- The four named results of `InputStream`: the stream handle, the flush
flag, the resolved content type and the error. -/
structure StreamResult where
  stream : Option Nat
  flush : Bool
  contentType : String
  err : Option GoError
deriving DecidableEq, Repr

/-- The outcome of one `InputStream` call, together with the observable
effects needed to state the claims: the requests handed to the transport,
the completed response (when the send succeeded), and the body handles the
adapter closed internally before returning. -/
structure Outcome where
  result : StreamResult
  sent : List Request
  completedResp : Option Response
  closedBodies : List Nat

/-- `InputStream` (`streamer.go:92-139`).  `nil` location: the null
stream.  Otherwise build the GET request with the caller's context and the
tenant header, send it through an `http.Client` whose transport is the
spec's (or the process default) and whose `CheckRedirect` is the spec's
redirect checker, run the optional response checker, resolve the content
type, and return the response body as the stream.  Note the source closes
no body on any path: `closedBodies` is always empty. -/
def InputStream (env : HttpEnv) (s : LocationStreamer) (ctx : Ctx) : Outcome :=
  match s.Location with
  | none => ⟨⟨none, false, "", none⟩, [], none, []⟩
  | some loc =>
    match streamRequest env s ctx loc with
    | .error e => ⟨⟨none, false, "", some e⟩, [], none, []⟩
    | .ok req =>
      let dr := clientDo (s.Transport.getD env.defaultTransport) s.RedirectChecker req
      match dr.outcome with
      | .error e => ⟨⟨none, false, "", some e⟩, dr.sent, none, []⟩
      | .ok resp =>
        match checkResponse s resp with
        | some e => ⟨⟨none, false, "", some e⟩, dr.sent, some resp, []⟩
        | none =>
          ⟨⟨some resp.body, s.Flush, resolveContentType s.ContentType resp.header, none⟩,
           dr.sent, some resp, []⟩

/-- Content-type resolution written from the spec's words (§4.2 step 7),
for comparison with `resolveContentType`: an explicit content type on the
spec is used verbatim; otherwise, if the response's `Content-Type` header
is present, the portion before the first `;` trimmed of surrounding
whitespace; if absent, the empty string. -/
def specContentTypeResolution (explicit : String) (headerVal : Option String) : String :=
  if explicit = "" then
    match headerVal with
    | none => ""
    | some v => trimSpace (splitBeforeSemicolon v)
  else explicit

/-! Concrete instances used by witnesses and counterexamples. -/

/-- A never-canceled caller context. -/
def ctx0 : Ctx := ⟨false⟩

/-- A canceled caller context. -/
def ctxCanceled : Ctx := ⟨true⟩

/-- A concrete target location. -/
def url0 : URL := ⟨"http://up.example/x"⟩

/-- A concrete completed response: `Content-Type: text/plain; charset=utf-8`,
body handle 7. -/
def resp0 : Response := ⟨[("Content-Type", "text/plain; charset=utf-8")], 7⟩

/-- A transport that answers every request with `resp0`. -/
def okTransport : Transport := fun _ => .success resp0

/-- A concrete follow-up request, as a redirecting transport would produce. -/
def nextReq : Request := ⟨"GET", "http://elsewhere.example/", Ctx.background, []⟩

/-- A transport that answers every request with a redirect to `nextReq`. -/
def redirectTransport : Transport := fun _ => .redirect nextReq

/-- An `net/http` environment in which every URL string parses. -/
def env0 : HttpEnv := ⟨fun _ => true, fun u => ⟨"parse error: " ++ u⟩, okTransport⟩

/-- A configmap store holding `virtualcluster-info` with
`Data["VirtualClusterName"] = "tenant-a"`. -/
def cmStoreOk : ConfigMapStore :=
  ⟨fun _ _ => .ok (.configMap [("VirtualClusterName", "tenant-a")])⟩

/-- A configmap store whose fetch always fails. -/
def cmStoreErr : ConfigMapStore := ⟨fun _ _ => .error ⟨"not found"⟩⟩

/-- A configmap store returning a runtime object that is not a ConfigMap. -/
def cmStoreOther : ConfigMapStore := ⟨fun _ _ => .ok (.other "Pod")⟩

/-- A configmap store whose record lacks the `VirtualClusterName` key. -/
def cmStoreNoField : ConfigMapStore := ⟨fun _ _ => .ok (.configMap [("foo", "bar")])⟩

/-- The error a rejecting response checker produces. -/
def valErr : GoError := ⟨"unexpected status"⟩

/-- A response checker that rejects every response with `valErr`. -/
def rejectAll (_ : Response) : Option GoError := some valErr

/-- A baseline streamer spec: location set, default transport, no explicit
content type, flush off, no checkers, tenant store `cmStoreOk`. -/
def baseStreamer : LocationStreamer :=
  ⟨some url0, none, "", false, none, none, cmStoreOk⟩

/-- A streamer spec with a rejecting response checker. -/
def rejectStreamer : LocationStreamer :=
  ⟨some url0, some okTransport, "", false, some rejectAll, none, cmStoreOk⟩

/-- The request `streamRequest` builds for `env0`/`baseStreamer`/`ctx0`. -/
def builtReq : Request :=
  ⟨"GET", "http://up.example/x", ctx0, [(VirtualClusterNameHeaderKey, "tenant-a")]⟩

/-- A streamer spec with no location set. -/
def nilLocStreamer : LocationStreamer :=
  ⟨none, none, "", false, none, none, cmStoreOk⟩

/-- A streamer spec whose tenant store's fetch fails. -/
def errStoreStreamer : LocationStreamer :=
  ⟨some url0, none, "", false, none, none, cmStoreErr⟩

/-- A streamer spec whose tenant store returns a non-ConfigMap object. -/
def otherStoreStreamer : LocationStreamer :=
  ⟨some url0, none, "", false, none, none, cmStoreOther⟩

/-- A streamer spec using the default redirect policy against a
redirecting transport. -/
def redirectStreamer : LocationStreamer :=
  ⟨some url0, some redirectTransport, "", false, none, some PreventRedirects, cmStoreOk⟩

/-! Helper lemmas shared by the claim theorems. -/

/-- Inversion of `streamRequest`: a successfully built request is the GET
request at the location's string, carrying the caller's context and
exactly the tenant header. -/
theorem streamRequest_ok_inv (env : HttpEnv) (s : LocationStreamer) (ctx : Ctx)
    (loc : URL) (req : Request) (h : streamRequest env s ctx loc = .ok req) :
    req = ⟨"GET", loc.str, ctx, [(VirtualClusterNameHeaderKey, getVirtualClusterName s)]⟩ := by
  unfold streamRequest newRequest at h
  by_cases hp : env.urlParses loc.str
  · simp [hp] at h
    exact h.symm
  · simp [hp] at h

/-- With positive fuel and an uncanceled request context, the first request
`clientDoAux` hands to the transport is the request it was given. -/
theorem clientDoAux_sent_head (t : Transport) (c : RedirectChecker) (fuel : Nat)
    (req : Request) (via : List Request) (h : req.ctx.canceled = false) :
    (clientDoAux t c (fuel + 1) req via).sent.head? = some req := by
  unfold clientDoAux
  rw [h]
  simp only [Bool.false_eq_true, if_false]
  cases ht : t req with
  | success resp => simp [ht]
  | failure e => simp [ht]
  | redirect next =>
    simp only [ht]
    cases hc : c next (via ++ [req]) with
    | some e => simp [hc]
    | none => simp [hc]

/-- A canceled request context aborts `clientDoAux` before the transport
is ever invoked. -/
theorem clientDoAux_canceled (t : Transport) (c : RedirectChecker) (fuel : Nat)
    (req : Request) (via : List Request) (h : req.ctx.canceled = true) :
    clientDoAux t c (fuel + 1) req via = ⟨.error ⟨"context canceled"⟩, []⟩ := by
  unfold clientDoAux
  rw [h]
  simp

/-- A canceled request context aborts `clientDo` before the transport is
ever invoked. -/
theorem clientDo_canceled (t : Transport) (c : Option RedirectChecker)
    (req : Request) (h : req.ctx.canceled = true) :
    clientDo t c req = ⟨.error ⟨"context canceled"⟩, []⟩ := by
  unfold clientDo
  exact clientDoAux_canceled t (c.getD defaultCheckRedirect) 10 req [] h

/-- The source's content-type resolution agrees with the spec's wording of
it, for every explicit content type and every response header list. -/
theorem resolveContentType_eq_spec (explicit : String) (h : List (String × String)) :
    resolveContentType explicit h =
      specContentTypeResolution explicit (headerFind h "Content-Type") := by
  unfold resolveContentType specContentTypeResolution headerGet
  by_cases he : explicit = ""
  · subst he
    simp only [show (("" : String).length == 0) = true from rfl, if_true]
    cases hf : headerFind h "Content-Type" with
    | none => simp
    | some v =>
      simp only [Option.getD_some]
      by_cases hv : v = ""
      · subst hv
        simp [splitBeforeSemicolon, trimSpace]
      · have hlen : 0 < v.length := by
          cases v with
          | mk data =>
            cases data with
            | nil => exact absurd rfl hv
            | cons a l => simp [String.length]
        simp [hlen]
  · have hb : (explicit.length == 0) = false := by
      cases explicit with
      | mk data =>
        cases data with
        | nil => exact absurd rfl he
        | cons a l => simp [String.length]
    simp [hb, he]

/-! Claim theorems. -/

/-- C2: for every spec whose location is unset, `InputStream` returns
immediately with no stream handle, flush `false`, empty content type and
no error, and hands no request to the transport (no network activity). -/
theorem inputStream_nil_location (env : HttpEnv) (s : LocationStreamer) (ctx : Ctx)
    (h : s.Location = none) :
    (InputStream env s ctx).result = ⟨none, false, "", none⟩ ∧
    (InputStream env s ctx).sent = [] ∧
    (InputStream env s ctx).completedResp = none := by
  unfold InputStream
  rw [h]
  exact ⟨rfl, rfl, rfl⟩

/-- Witness for C2 at a concrete spec with no location. -/
theorem inputStream_nil_location_witness :
    (InputStream env0 nilLocStreamer ctx0).result = ⟨none, false, "", none⟩ ∧
    (InputStream env0 nilLocStreamer ctx0).sent = [] ∧
    (InputStream env0 nilLocStreamer ctx0).completedResp = none :=
  inputStream_nil_location env0 nilLocStreamer ctx0 rfl

/-- C6: on every path, a stream handle is only returned together with a
`nil` error — every failure (request construction, transport, redirect
rejection, validator rejection) yields no handle. -/
theorem inputStream_handle_error_exclusive (env : HttpEnv) (s : LocationStreamer)
    (ctx : Ctx) :
    (InputStream env s ctx).result.err = none ∨
    (InputStream env s ctx).result.stream = none := by
  simp only [InputStream]
  split
  · exact Or.inl rfl
  · split
    · exact Or.inr rfl
    · split
      · exact Or.inr rfl
      · split
        · exact Or.inr rfl
        · exact Or.inl rfl

/-- C4: the tenant resolver returns the empty string when the configmap
fetch fails or when the record lacks the `VirtualClusterName` key; its
return type is `String`, so no error can propagate to `InputStream`. -/
theorem getVirtualClusterName_best_effort (s : LocationStreamer)
    (h : (∃ e, s.ConfigMap.get VirtualClusterInfoConfigMapNS
            VirtualClusterInfoConfigMapName = .error e) ∨
         (∃ data, s.ConfigMap.get VirtualClusterInfoConfigMapNS
            VirtualClusterInfoConfigMapName = .ok (.configMap data) ∧
          data.find? (fun p => p.fst == VirtualClusterNameConfigMapDataKey) = none)) :
    getVirtualClusterName s = "" := by
  unfold getVirtualClusterName
  rcases h with ⟨e, he⟩ | ⟨data, hd, hf⟩
  · rw [he]
  · rw [hd]
    simp only []
    rw [hf]

/-- Witness for C4 at a concrete spec whose configmap fetch fails. -/
theorem getVirtualClusterName_best_effort_witness :
    getVirtualClusterName errStoreStreamer = "" :=
  getVirtualClusterName_best_effort errStoreStreamer (Or.inl ⟨⟨"not found"⟩, rfl⟩)

/-- C9: when the fetch succeeds but the returned runtime object is not a
ConfigMap (the type assertion fails), the tenant resolver also returns the
empty string. -/
theorem getVirtualClusterName_non_configmap (s : LocationStreamer) (d : String)
    (h : s.ConfigMap.get VirtualClusterInfoConfigMapNS
          VirtualClusterInfoConfigMapName = .ok (.other d)) :
    getVirtualClusterName s = "" := by
  unfold getVirtualClusterName
  rw [h]

/-- Witness for C9 at a concrete store returning a non-ConfigMap object. -/
theorem getVirtualClusterName_non_configmap_witness :
    getVirtualClusterName otherStoreStreamer = "" :=
  getVirtualClusterName_non_configmap otherStoreStreamer "Pod" rfl

/-- C10: `DeepCopyObject` panics unconditionally (modelled as the error
side of `Except`, with the Go panic message), and `GetObjectKind` always
returns the empty object kind. -/
theorem deepCopyObject_panics_getObjectKind_empty (s : LocationStreamer) :
    DeepCopyObject s =
      .error "rest.LocationStreamer does not implement DeepCopyObject" ∧
    GetObjectKind s = ObjectKind.empty :=
  ⟨rfl, rfl⟩

/-- C7: `PreventRedirects` rejects every request/history pair with the
error "redirects forbidden"; consequently, when the transport answers a
request with a redirect, the client send aborts with that error and no
redirect hop is ever followed (only the initial request is sent). -/
theorem preventRedirects_rejects_all (transport : Transport) (req next : Request)
    (via : List Request) (fuel : Nat)
    (hc : req.ctx.canceled = false) (ht : transport req = .redirect next) :
    (∀ r v, PreventRedirects r v = some ⟨"redirects forbidden"⟩) ∧
    (clientDoAux transport PreventRedirects (fuel + 1) req via).outcome =
      .error ⟨"redirects forbidden"⟩ ∧
    (clientDoAux transport PreventRedirects (fuel + 1) req via).sent = [req] := by
  refine ⟨fun r v => rfl, ?_, ?_⟩ <;>
  · unfold clientDoAux
    rw [hc]
    simp [ht, PreventRedirects]

/-- Witness for C7: a concrete redirecting transport and request. -/
theorem preventRedirects_rejects_all_witness :
    (∀ r v, PreventRedirects r v = some ⟨"redirects forbidden"⟩) ∧
    (clientDoAux redirectTransport PreventRedirects (10 + 1) builtReq []).outcome =
      .error ⟨"redirects forbidden"⟩ ∧
    (clientDoAux redirectTransport PreventRedirects (10 + 1) builtReq []).sent =
      [builtReq] :=
  preventRedirects_rejects_all redirectTransport builtReq nextReq [] 10 rfl rfl

/-- C5: for every stream attempt with a set location whose request
construction succeeds, the outbound request has method GET and exactly one
custom header — `virtualcluster-name`, valued at the resolved tenant
string (possibly empty) — and, when the caller's context is not canceled,
that request is the first one handed to the transport. -/
theorem inputStream_outbound_request (env : HttpEnv) (s : LocationStreamer)
    (ctx : Ctx) (loc : URL) (req : Request)
    (hloc : s.Location = some loc)
    (hreq : streamRequest env s ctx loc = .ok req)
    (hcanc : ctx.canceled = false) :
    req.method = "GET" ∧
    req.header = [(VirtualClusterNameHeaderKey, getVirtualClusterName s)] ∧
    (InputStream env s ctx).sent.head? = some req := by
  have hinv := streamRequest_ok_inv env s ctx loc req hreq
  have hctx : req.ctx = ctx := by rw [hinv]
  refine ⟨by rw [hinv], by rw [hinv], ?_⟩
  simp only [InputStream, hloc, hreq]
  have hc : req.ctx.canceled = false := by rw [hctx]; exact hcanc
  cases hD : (clientDo (s.Transport.getD env.defaultTransport)
      s.RedirectChecker req).outcome with
  | error e =>
    simp only [hD]
    exact clientDoAux_sent_head _ _ 10 _ _ hc
  | ok resp =>
    simp only [hD]
    cases hC : checkResponse s resp with
    | some e =>
      simp only [hC]
      exact clientDoAux_sent_head _ _ 10 _ _ hc
    | none =>
      simp only [hC]
      exact clientDoAux_sent_head _ _ 10 _ _ hc

/-- Witness for C5 at a concrete spec and environment. -/
theorem inputStream_outbound_request_witness :
    builtReq.method = "GET" ∧
    builtReq.header =
      [(VirtualClusterNameHeaderKey, getVirtualClusterName baseStreamer)] ∧
    (InputStream env0 baseStreamer ctx0).sent.head? = some builtReq :=
  inputStream_outbound_request env0 baseStreamer ctx0 url0 builtReq rfl rfl rfl

/-- C8: the caller's context is attached verbatim to the outbound request
(the adapter adds no timeout of its own), and when that context is
canceled the send aborts — `InputStream` returns a non-nil error and no
handle, and the transport is never invoked. -/
theorem inputStream_context_cancellation (env : HttpEnv) (s : LocationStreamer)
    (ctx : Ctx) (loc : URL) (req : Request)
    (hloc : s.Location = some loc)
    (hreq : streamRequest env s ctx loc = .ok req)
    (hcan : ctx.canceled = true) :
    req.ctx = ctx ∧
    (InputStream env s ctx).result.err = some ⟨"context canceled"⟩ ∧
    (InputStream env s ctx).result.stream = none ∧
    (InputStream env s ctx).sent = [] := by
  have hinv := streamRequest_ok_inv env s ctx loc req hreq
  have hctx : req.ctx = ctx := by rw [hinv]
  have hdo := clientDo_canceled (s.Transport.getD env.defaultTransport)
    s.RedirectChecker req (by rw [hctx]; exact hcan)
  refine ⟨hctx, ?_, ?_, ?_⟩ <;> simp [InputStream, hloc, hreq, hdo]

/-- Witness for C8 at a concrete spec with a canceled caller context. -/
theorem inputStream_context_cancellation_witness :
    (⟨"GET", "http://up.example/x", ctxCanceled,
        [(VirtualClusterNameHeaderKey, "tenant-a")]⟩ : Request).ctx = ctxCanceled ∧
    (InputStream env0 baseStreamer ctxCanceled).result.err =
      some ⟨"context canceled"⟩ ∧
    (InputStream env0 baseStreamer ctxCanceled).result.stream = none ∧
    (InputStream env0 baseStreamer ctxCanceled).sent = [] :=
  inputStream_context_cancellation env0 baseStreamer ctxCanceled url0
    ⟨"GET", "http://up.example/x", ctxCanceled,
      [(VirtualClusterNameHeaderKey, "tenant-a")]⟩ rfl rfl rfl

/-- C1 counterexample: at this concrete input the configured validator
rejects the completed response; `InputStream` returns the validator error
with no handle, the completed response's body is handle 7, yet the set of
body handles closed internally before returning is empty — the source
(`streamer.go:123-127`) returns the checker's error without calling
`resp.Body.Close()`, so the claim's closure conjunct is false. -/
theorem validator_close_counterexample :
    (InputStream env0 rejectStreamer ctx0).result.err = some valErr ∧
    (InputStream env0 rejectStreamer ctx0).result.stream = none ∧
    (InputStream env0 rejectStreamer ctx0).completedResp = some resp0 ∧
    resp0.body ∉ (InputStream env0 rejectStreamer ctx0).closedBodies :=
  ⟨rfl, rfl, rfl, by decide⟩

/-- C1 amended: when the configured validator rejects the completed
response, `InputStream` returns that validator error as its error with no
stream handle, but the response body is not closed internally before the
error is returned (no body handle is ever closed by the operation). -/
theorem validator_rejection_amended (env : HttpEnv) (s : LocationStreamer)
    (ctx : Ctx) (loc : URL) (req : Request) (resp : Response)
    (chk : Response → Option GoError) (e : GoError)
    (hloc : s.Location = some loc)
    (hreq : streamRequest env s ctx loc = .ok req)
    (hdo : (clientDo (s.Transport.getD env.defaultTransport)
        s.RedirectChecker req).outcome = .ok resp)
    (hchk : s.ResponseChecker = some chk)
    (he : chk resp = some e) :
    (InputStream env s ctx).result.err = some e ∧
    (InputStream env s ctx).result.stream = none ∧
    (InputStream env s ctx).closedBodies = [] := by
  have hcr : checkResponse s resp = some e := by
    unfold checkResponse
    rw [hchk]
    exact he
  refine ⟨?_, ?_, ?_⟩ <;> simp [InputStream, hloc, hreq, hdo, hcr]

/-- Witness for the amended C1 at a concrete rejecting validator. -/
theorem validator_rejection_amended_witness :
    (InputStream env0 rejectStreamer ctx0).result.err = some valErr ∧
    (InputStream env0 rejectStreamer ctx0).result.stream = none ∧
    (InputStream env0 rejectStreamer ctx0).closedBodies = [] :=
  validator_rejection_amended env0 rejectStreamer ctx0 url0 builtReq resp0
    rejectAll valErr rfl rfl rfl rfl rfl

/-- C3: on every successful stream attempt the resolved content type is
the spec's explicit content type verbatim when one is set, and otherwise
the portion of the response's `Content-Type` header before the first `;`,
trimmed of surrounding whitespace, with the empty string when that header
is absent — i.e. the source's resolution refines the spec's wording. -/
theorem inputStream_contentType_spec (env : HttpEnv) (s : LocationStreamer)
    (ctx : Ctx) (r : Response)
    (herr : (InputStream env s ctx).result.err = none)
    (hresp : (InputStream env s ctx).completedResp = some r) :
    (InputStream env s ctx).result.contentType =
      specContentTypeResolution s.ContentType (headerFind r.header "Content-Type") := by
  cases hL : s.Location with
  | none => simp [InputStream, hL] at hresp
  | some loc =>
    cases hR : streamRequest env s ctx loc with
    | error e => simp [InputStream, hL, hR] at hresp
    | ok req =>
      cases hD : (clientDo (s.Transport.getD env.defaultTransport)
          s.RedirectChecker req).outcome with
      | error e => simp [InputStream, hL, hR, hD] at hresp
      | ok resp =>
        cases hC : checkResponse s resp with
        | some e => simp [InputStream, hL, hR, hD, hC] at herr
        | none =>
          simp only [InputStream, hL, hR, hD, hC] at hresp ⊢
          simp at hresp
          subst hresp
          exact resolveContentType_eq_spec s.ContentType resp.header

/-- Witness for C3 at a concrete successful attempt whose response has
`Content-Type: text/plain; charset=utf-8`. -/
theorem inputStream_contentType_spec_witness :
    (InputStream env0 baseStreamer ctx0).result.contentType =
      specContentTypeResolution baseStreamer.ContentType
        (headerFind resp0.header "Content-Type") :=
  inputStream_contentType_spec env0 baseStreamer ctx0 resp0 rfl rfl

end Streamer
